import Mathlib

/-!
Verification of the tabby-connection-gateway handshake and transport code.

The Python sources (tabby_connection_gateway/base.py and
tabby_connection_gateway/gateway_server.py) are shallowly embedded below:

* JSON values produced by json.loads become the inductive JValue; dict.get
  becomes pyDictGet / jget (calling .get on a non-object raises
  AttributeError, carried as HErr.attrErr).
* Service frames sent by the server become the inductive SMsg.
* The process-wide Python set authorized_tokens is embedded as the list of
  its elements (a Python set holds no duplicate values); set.remove becomes
  List.erase, which removes one occurrence of the value.
* One accepted connection is a RunState: the list of frames sent so far, the
  live one-time token set, the session closed flag, a flag recording whether
  websocket.close() was ever invoked by the worker code, the recorded target
  address, and flags for the TCP writer (dialed / writerClosed) and the relay
  tasks (relaying).
* Network reads are an explicit input list: each recv_service_message call
  consumes one Recv, which is either a parsed JSON value (json.loads
  succeeded), a malformed payload (JSONDecodeError), or a closed connection
  (websockets ConnectionClosed); an exhausted input list also stands for a
  closed connection.  Sends never fail in the model.
* asyncio.open_connection is an oracle parameter dial; its failure message is
  the string forwarded in the connection-failed frame.
* hmac.compare_digest on two ASCII strings returns plain equality; it
  raises TypeError (HErr.typeErr) when the presented value is not a string
  or when either string operand holds a character outside ASCII.
* The exception handlers at the bottom of GatewayWorker.start become
  handleExn: JSONDecodeError / TypeError map to fatal "invalid-message",
  ConnectionClosed returns silently, anything else maps to fatal
  "handshake-error".
-/

namespace TabbyGateway

/-- JSON values as produced by json.loads. -/
inductive JValue where
  | null
  | bool (b : Bool)
  | num (n : Int)
  | str (s : String)
  | arr (elems : List JValue)
  | obj (fields : List (String × JValue))

/-- Python truthiness of a JSON value. -/
def truthyV : JValue → Bool
  | .null => false
  | .bool b => b
  | .num n => n != 0
  | .str s => s != ""
  | .arr l => !l.isEmpty
  | .obj fs => !fs.isEmpty

/-- Python dict.get for a JSON object: the last binding of a key wins
(json.loads keeps the last duplicate), absent keys give None. -/
def pyDictGet (fs : List (String × JValue)) (k : String) : Option JValue :=
  (fs.reverse.find? (fun p => p.1 == k)).map (fun p => p.2)

/-- Whether a JSON value is an object (has the .get method). -/
def isObjV : JValue → Bool
  | .obj _ => true
  | _ => false

/-- Exceptions that can escape a handshake step. -/
inductive HErr where
  | jsonDecode
  | typeErr
  | connClosed
  | attrErr (m : String)

/-- msg.get(k): succeeds on dict values, raises AttributeError otherwise. -/
def jget (v : JValue) (k : String) : Except HErr (Option JValue) :=
  match v with
  | .obj fs => .ok (pyDictGet fs k)
  | _ => .error (.attrErr "object has no attribute get")

/-- Python test (x == some string literal) for a possibly missing value. -/
def isStrV (o : Option JValue) (s : String) : Bool :=
  match o with
  | some (.str t) => t == s
  | _ => false

/-- Whether a Python str holds only ASCII characters (code points below
128); hmac.compare_digest supports str operands only when both are ASCII. -/
def isAsciiStr (s : String) : Bool :=
  s.data.all (fun c => decide (c.toNat < 128))

/-- hmac.compare_digest of the presented JSON value against a stored token:
two ASCII strings compare by (timing-safe) equality; a non-string presented
value, or a str operand on either side holding a non-ASCII character, raises
TypeError. -/
def compare_digest (a : JValue) (b : String) : Except HErr Bool :=
  match a with
  | .str s =>
    if isAsciiStr s && isAsciiStr b then .ok (s == b) else .error .typeErr
  | _ => .error .typeErr

/-- Service messages the server sends (BaseWorker.send_service_message
payloads). -/
inductive SMsg where
  | hello (version : Nat) (auth_required : Bool)
  | ready
  | connected
  | error (code : String) (details : Option String)
deriving DecidableEq

/-- One result of awaiting websocket.recv + json.loads inside
recv_service_message. -/
inductive Recv where
  | frame (v : JValue)
  | malformed
  | closed

/-- Immutable server configuration plus the shared one-time token set at
session start (GatewayServer fields). -/
structure ServerCfg where
  authorized_tokens : List String
  permanent_auth_token : Option String
  disable_auth : Bool

/-- Observable state of one session run. -/
structure RunState where
  sent : List SMsg
  tokens : List String
  closed : Bool
  wsClosed : Bool
  target_host : Option JValue
  target_port : Option JValue
  dialed : Bool
  writerClosed : Bool
  relaying : Bool

/-- BaseWorker.send_service_message: append one frame to the stream of sent
frames. -/
def send_service_message (st : RunState) (m : SMsg) : RunState :=
  { st with sent := st.sent ++ [m] }

/-- BaseWorker.close: set the closed flag on the first call, do nothing on
later calls. -/
def base_close (st : RunState) : RunState :=
  if st.closed then st else { st with closed := true }

/-- GatewayWorker.close: first super().close(), then, only when the closed
flag is still unset, drain and close the TCP writer when one exists. -/
def gw_close (st : RunState) : RunState :=
  let st1 := base_close st
  if !st1.closed then
    if st1.dialed then { st1 with writerClosed := true } else st1
  else st1

/-- BaseWorker.fatal: send the error frame, then call close(). -/
def fatal (code : String) (details : Option String) (st : RunState) : RunState :=
  gw_close (send_service_message st (SMsg.error code details))

/-- BaseWorker.recv_service_message on the next pending input. -/
def recv_service_message : Option Recv → Except HErr JValue
  | none => .error .connClosed
  | some .closed => .error .connClosed
  | some .malformed => .error .jsonDecode
  | some (.frame v) => .ok v

/-- Result of the try-block of GatewayWorker.start: either a normal return
with the final state, or an escaped exception together with the state at the
moment it was raised. -/
inductive BodyRes where
  | done (st : RunState)
  | exn (e : HErr) (st : RunState)

/-- The candidate list contributed by the permanent token: appended only when
permanent_auth_token is truthy (a non-empty string). -/
def permList : Option String → List String
  | none => []
  | some p => if p == "" then [] else [p]

/-- The token loop of GatewayWorker.start: walk valid_tokens, compare each
with compare_digest, and on the first match remove it from the one-time set
when it is a member; none means the loop fell through to its else clause. -/
def authLoop (presented : JValue) (valid : List String) (tks : List String) :
    Except HErr (Option (List String)) :=
  match valid with
  | [] => .ok none
  | t :: rest =>
    match compare_digest presented t with
    | .error e => .error e
    | .ok true => .ok (some (if t ∈ tks then tks.erase t else tks))
    | .ok false => authLoop presented rest tks

/-- The authentication block of GatewayWorker.start (skipped when auth is
disabled): presence check of auth_token, then the token loop. -/
def authPhase (cfg : ServerCfg) (st : RunState) (msg : JValue) :
    Except BodyRes RunState :=
  if cfg.disable_auth then .ok st
  else
    match jget msg "auth_token" with
    | .error e => .error (.exn e st)
    | .ok none => .error (.done (fatal "expected-auth-token" none st))
    | .ok (some v) =>
      if truthyV v then
        match authLoop v (st.tokens ++ permList cfg.permanent_auth_token)
            st.tokens with
        | .error e => .error (.exn e st)
        | .ok none => .error (.done (fatal "incorrect-auth-token" none st))
        | .ok (some tks) => .ok { st with tokens := tks }
      else .error (.done (fatal "expected-auth-token" none st))

/-- The connect step of GatewayWorker.start: expect a connect frame, record
host and port, dial, and on success send connected and spawn the relay
tasks. -/
def connectPhase (st : RunState)
    (dial : Option JValue → Option JValue → Except String Unit)
    (r : Option Recv) : BodyRes :=
  match recv_service_message r with
  | .error e => .exn e st
  | .ok msg =>
    match jget msg "_" with
    | .error e => .exn e st
    | .ok d =>
      if isStrV d "connect" then
        match jget msg "host" with
        | .error e => .exn e st
        | .ok h =>
          match jget msg "port" with
          | .error e => .exn e st
          | .ok p =>
            match dial h p with
            | .error e =>
              .done (fatal "connection-failed" (some e)
                { st with target_host := h, target_port := p })
            | .ok _ =>
              .done { st with
                        target_host := h, target_port := p, dialed := true,
                        sent := st.sent ++ [SMsg.connected], relaying := true }
      else .done (fatal "expected-connect" none st)

/-- Session state right after the initial hello frame is sent. -/
def initState (cfg : ServerCfg) : RunState :=
  { sent := [SMsg.hello 1 (!cfg.disable_auth)], tokens := cfg.authorized_tokens,
    closed := false, wsClosed := false, target_host := none, target_port := none,
    dialed := false, writerClosed := false, relaying := false }

/-- The try-block of GatewayWorker.start. -/
def bodyRun (cfg : ServerCfg)
    (dial : Option JValue → Option JValue → Except String Unit)
    (input : List Recv) : BodyRes :=
  match recv_service_message input.head? with
  | .error e => .exn e (initState cfg)
  | .ok msg =>
    match jget msg "_" with
    | .error e => .exn e (initState cfg)
    | .ok d =>
      if isStrV d "hello" then
        match authPhase cfg (initState cfg) msg with
        | .error b => b
        | .ok st2 =>
          connectPhase (send_service_message st2 SMsg.ready) dial (input.get? 1)
      else .done (fatal "expected-hello" none (initState cfg))

/-- The exception handlers at the bottom of GatewayWorker.start. -/
def handleExn : HErr → RunState → RunState
  | .jsonDecode, st => fatal "invalid-message" (some "Invalid JSON format") st
  | .typeErr, st => fatal "invalid-message" (some "Invalid JSON format") st
  | .connClosed, st => st
  | .attrErr m, st => fatal "handshake-error" (some m) st

/-- Collapse a BodyRes through the exception handlers. -/
def finishBody : BodyRes → RunState
  | .done st => st
  | .exn e st => handleExn e st

/-- GatewayWorker.start as one function from configuration, dial oracle and
input stream to the resulting session state. -/
def start (cfg : ServerCfg)
    (dial : Option JValue → Option JValue → Except String Unit)
    (input : List Recv) : RunState :=
  finishBody (bodyRun cfg dial input)

/-- GatewayServer.handler: run the handshake, await the relay tasks, and in
the finally block call close().  The relay pumps themselves are outside the
embedded fragment; the only state they ever change is via the same close(),
so the handler's effect on the session state is start followed by
gw_close. -/
def handler (cfg : ServerCfg)
    (dial : Option JValue → Option JValue → Except String Unit)
    (input : List Recv) : RunState :=
  gw_close (start cfg dial input)

/-! The patched HTTP line reader of base.py.  The byte stream is a finite
list of bytes (read one at a time); reaching its end models stream.read
returning an empty chunk.  The exceptions-from-read path of the source is not
reachable for a pure stream and is not modeled. -/

/-- Errors patched_read_line can raise. -/
inductive RLErr where
  | connectionReset
  | securityError
deriving DecidableEq

/-- The raised per-line limit of the patch: 64 KiB instead of the default
4 KiB. -/
def max_line_length : Nat := 64 * 1024

/-- Python bytes.endswith for the single byte LF. -/
def endsWithLF (l : List Nat) : Prop := l.getLast? = some 10

/-- Python bytes.endswith for the two bytes CR LF. -/
def endsWithCRLF (l : List Nat) : Prop :=
  l.getLast? = some 10 ∧ l.dropLast.getLast? = some 13

instance (l : List Nat) : Decidable (endsWithLF l) := by
  unfold endsWithLF
  infer_instance

instance (l : List Nat) : Decidable (endsWithCRLF l) := by
  unfold endsWithCRLF
  infer_instance

/-- patched_read_line of base.py, with the already accumulated line as second
argument (the source starts it at the empty bytes): read one byte at a time;
an empty chunk returns the partial line when non-empty and raises
ConnectionResetError otherwise; a line ending in CR LF is returned without
its last two bytes, one ending in LF without its last byte; a longer-than-limit
line raises SecurityError. -/
def patched_read_line : List Nat → List Nat → Except RLErr (List Nat)
  | [], line => if line.isEmpty then .error .connectionReset else .ok line
  | b :: rest, line =>
    let line2 := line ++ [b]
    if endsWithCRLF line2 then .ok line2.dropLast.dropLast
    else if endsWithLF line2 then .ok line2.dropLast
    else if max_line_length < line2.length then .error .securityError
    else patched_read_line rest line2

/-- The stripping a returned line undergoes relative to its pre-terminator
content: an LF terminator also takes a directly preceding CR with it. -/
def stripCR (l : List Nat) : List Nat :=
  if l.getLast? = some 13 then l.dropLast else l

/-! The message-size configuration of BaseServer. -/

/-- BaseServer.__init__: self.max_message_size = max_message_size or
(10 * 1024 * 1024); the or-default replaces None and 0 alike. -/
def effective_max_message_size : Option Nat → Nat
  | none => 10 * 1024 * 1024
  | some v => if v = 0 then 10 * 1024 * 1024 else v

/-- The size-related entries of the server_config dict built in
BaseServer.start. -/
structure ServerConfigDict where
  max_size : Nat
  read_limit : Nat
  write_limit : Nat
deriving DecidableEq

/-- BaseServer.start: max_size, read_limit and write_limit are all set to
self.max_message_size. -/
def mkServerConfig (m : Option Nat) : ServerConfigDict :=
  { max_size := effective_max_message_size m,
    read_limit := effective_max_message_size m,
    write_limit := effective_max_message_size m }

/-! Basic lemmas about the session-state operations. -/

@[simp] lemma initState_sent (cfg : ServerCfg) :
    (initState cfg).sent = [SMsg.hello 1 (!cfg.disable_auth)] := rfl

@[simp] lemma initState_tokens (cfg : ServerCfg) :
    (initState cfg).tokens = cfg.authorized_tokens := rfl

@[simp] lemma send_sent (st : RunState) (m : SMsg) :
    (send_service_message st m).sent = st.sent ++ [m] := rfl

@[simp] lemma send_tokens (st : RunState) (m : SMsg) :
    (send_service_message st m).tokens = st.tokens := rfl

/-- GatewayWorker.close only ever sets the closed flag: after super().close()
has set it, the drain-and-close branch is unreachable, so no other field
changes. -/
lemma gw_close_eq (st : RunState) : gw_close st = { st with closed := true } := by
  cases st with
  | mk sent tokens closed wsClosed th tp dialed writerClosed relaying =>
    cases closed <;> rfl

/-- fatal appends the error frame and sets the closed flag; nothing else
changes. -/
lemma fatal_eq (c : String) (d : Option String) (st : RunState) :
    fatal c d st = { st with sent := st.sent ++ [SMsg.error c d], closed := true } := by
  cases st with
  | mk sent tokens closed wsClosed th tp dialed writerClosed relaying =>
    cases closed <;> rfl

@[simp] lemma handleExn_tokens (e : HErr) (st : RunState) :
    (handleExn e st).tokens = st.tokens := by
  cases e <;> simp [handleExn, fatal_eq]

lemma handleExn_sent (e : HErr) (st : RunState) :
    ∃ l, (handleExn e st).sent = st.sent ++ l := by
  cases e with
  | jsonDecode =>
    exact ⟨[SMsg.error "invalid-message" (some "Invalid JSON format")],
      by simp [handleExn, fatal_eq]⟩
  | typeErr =>
    exact ⟨[SMsg.error "invalid-message" (some "Invalid JSON format")],
      by simp [handleExn, fatal_eq]⟩
  | connClosed => exact ⟨[], by simp [handleExn]⟩
  | attrErr m =>
    exact ⟨[SMsg.error "handshake-error" (some m)], by simp [handleExn, fatal_eq]⟩

/-- The connect step never touches the token set. -/
@[simp] lemma finish_connect_tokens (st : RunState)
    (dial : Option JValue → Option JValue → Except String Unit) (r : Option Recv) :
    (finishBody (connectPhase st dial r)).tokens = st.tokens := by
  unfold connectPhase
  cases hrr : recv_service_message r with
  | error e => simp [finishBody]
  | ok msg =>
    dsimp only
    cases hj : jget msg "_" with
    | error e => simp [finishBody]
    | ok d =>
      dsimp only
      cases hb : isStrV d "connect" with
      | false => simp [finishBody, fatal_eq]
      | true =>
        cases hh : jget msg "host" with
        | error e => simp [finishBody]
        | ok h =>
          dsimp only
          cases hp : jget msg "port" with
          | error e => simp [finishBody]
          | ok p =>
            dsimp only
            cases hd : dial h p with
            | error e => simp [finishBody, fatal_eq]
            | ok u => simp [finishBody]

/-- The connect step only appends to the stream of sent frames. -/
lemma finish_connect_sent (st : RunState)
    (dial : Option JValue → Option JValue → Except String Unit) (r : Option Recv) :
    ∃ l, (finishBody (connectPhase st dial r)).sent = st.sent ++ l := by
  unfold connectPhase
  cases hrr : recv_service_message r with
  | error e => exact handleExn_sent e st
  | ok msg =>
    dsimp only
    cases hj : jget msg "_" with
    | error e => exact handleExn_sent e st
    | ok d =>
      dsimp only
      cases hb : isStrV d "connect" with
      | false =>
        exact ⟨[SMsg.error "expected-connect" none], by simp [finishBody, fatal_eq]⟩
      | true =>
        cases hh : jget msg "host" with
        | error e => exact handleExn_sent e st
        | ok h =>
          dsimp only
          cases hp : jget msg "port" with
          | error e => exact handleExn_sent e st
          | ok p =>
            dsimp only
            cases hd : dial h p with
            | error e =>
              exact ⟨[SMsg.error "connection-failed" (some e)],
                by simp [finishBody, fatal_eq]⟩
            | ok u => exact ⟨[SMsg.connected], by simp [finishBody]⟩

/-! Lemmas about the token loop. -/

/-- When the presented string and every candidate are ASCII and the
presented string occurs in the candidate list, the loop stops at it and
removes exactly that string from the one-time set when it is a member,
leaving the set alone otherwise. -/
lemma authLoop_mem (s : String) (l : List String) (tks : List String)
    (has : isAsciiStr s = true) (hall : ∀ t ∈ l, isAsciiStr t = true)
    (hs : s ∈ l) :
    authLoop (JValue.str s) l tks =
      .ok (some (if s ∈ tks then tks.erase s else tks)) := by
  induction l with
  | nil => cases hs
  | cons t ts ih =>
    have hat : isAsciiStr t = true := hall t (List.mem_cons_self t ts)
    have hall2 : ∀ u ∈ ts, isAsciiStr u = true :=
      fun u hu => hall u (List.mem_cons_of_mem _ hu)
    rcases eq_or_ne s t with h | h
    · subst h
      simp [authLoop, compare_digest, has]
    · have hs2 : s ∈ ts := by
        rcases List.mem_cons.mp hs with h1 | h1
        · exact absurd h1 h
        · exact h1
      have hbe : (s == t) = false := beq_eq_false_iff_ne.mpr h
      simp [authLoop, compare_digest, has, hat, hbe, ih hall2 hs2]

/-- When the presented string and every candidate are ASCII and the
presented string occurs nowhere in the candidate list, the loop falls
through to its else clause. -/
lemma authLoop_not_mem (s : String) (l : List String) (tks : List String)
    (has : isAsciiStr s = true) (hall : ∀ t ∈ l, isAsciiStr t = true)
    (hs : s ∉ l) :
    authLoop (JValue.str s) l tks = .ok none := by
  induction l with
  | nil => rfl
  | cons t ts ih =>
    have hat : isAsciiStr t = true := hall t (List.mem_cons_self t ts)
    have hall2 : ∀ u ∈ ts, isAsciiStr u = true :=
      fun u hu => hall u (List.mem_cons_of_mem _ hu)
    have h : s ≠ t := fun he => hs (he ▸ List.mem_cons_self t ts)
    have hs2 : s ∉ ts := fun h2 => hs (List.mem_cons_of_mem _ h2)
    have hbe : (s == t) = false := beq_eq_false_iff_ne.mpr h
    simp [authLoop, compare_digest, has, hat, hbe, ih hall2 hs2]

/-- The authentication block on a hello object carrying a non-empty
auth_token string that occurs in the candidate list: it returns normally,
removing the matched string from the one-time set when the set held it. -/
lemma authPhase_success (cfg : ServerCfg) (st : RunState)
    (fields : List (String × JValue)) (s : String)
    (hauth : cfg.disable_auth = false)
    (htok : pyDictGet fields "auth_token" = some (JValue.str s))
    (hne : s ≠ "") (has : isAsciiStr s = true)
    (hall : ∀ t ∈ st.tokens ++ permList cfg.permanent_auth_token,
      isAsciiStr t = true)
    (hmem : s ∈ st.tokens ++ permList cfg.permanent_auth_token) :
    authPhase cfg st (JValue.obj fields) =
      .ok { st with tokens := if s ∈ st.tokens then st.tokens.erase s
                              else st.tokens } := by
  have hbe : (s == "") = false := beq_eq_false_iff_ne.mpr hne
  have hloop := authLoop_mem s _ st.tokens has hall hmem
  unfold authPhase
  simp only [hauth, Bool.false_eq_true, if_false, jget, htok, truthyV, bne, hbe,
    Bool.not_false, if_true, hloop]

/-- The authentication block on a hello object carrying a non-empty
auth_token string that occurs nowhere in the candidate list: the session is
terminated with fatal incorrect-auth-token. -/
lemma authPhase_fail (cfg : ServerCfg) (st : RunState)
    (fields : List (String × JValue)) (s : String)
    (hauth : cfg.disable_auth = false)
    (htok : pyDictGet fields "auth_token" = some (JValue.str s))
    (hne : s ≠ "") (has : isAsciiStr s = true)
    (hall : ∀ t ∈ st.tokens ++ permList cfg.permanent_auth_token,
      isAsciiStr t = true)
    (hnm : s ∉ st.tokens ++ permList cfg.permanent_auth_token) :
    authPhase cfg st (JValue.obj fields) =
      .error (.done (fatal "incorrect-auth-token" none st)) := by
  have hbe : (s == "") = false := beq_eq_false_iff_ne.mpr hne
  have hloop := authLoop_not_mem s _ st.tokens has hall hnm
  unfold authPhase
  simp only [hauth, Bool.false_eq_true, if_false, jget, htok, truthyV, bne, hbe,
    Bool.not_false, if_true, hloop]

/-- Once ready is among the sent frames, the connect step keeps it there. -/
lemma finish_connect_ready (st : RunState)
    (dial : Option JValue → Option JValue → Except String Unit) (r : Option Recv)
    (h : SMsg.ready ∈ st.sent) :
    SMsg.ready ∈ (finishBody (connectPhase st dial r)).sent := by
  obtain ⟨l, hl⟩ := finish_connect_sent st dial r
  rw [hl]
  exact List.mem_append_left _ h

/-- A run whose first frame is a hello object carrying an ASCII auth_token
string that occurs in the all-ASCII candidate set: the session authenticates
(sends ready) and the one-time set loses exactly the matched string when it
held it. -/
lemma auth_success_run (cfg : ServerCfg)
    (dial : Option JValue → Option JValue → Except String Unit)
    (fields : List (String × JValue)) (rest : List Recv) (s : String)
    (hauth : cfg.disable_auth = false)
    (hdisc : pyDictGet fields "_" = some (JValue.str "hello"))
    (htok : pyDictGet fields "auth_token" = some (JValue.str s))
    (hne : s ≠ "") (has : isAsciiStr s = true)
    (hall : ∀ t ∈ cfg.authorized_tokens ++ permList cfg.permanent_auth_token,
      isAsciiStr t = true)
    (hcand : s ∈ cfg.authorized_tokens ∨ s ∈ permList cfg.permanent_auth_token) :
    SMsg.ready ∈ (start cfg dial (Recv.frame (JValue.obj fields) :: rest)).sent ∧
    (start cfg dial (Recv.frame (JValue.obj fields) :: rest)).tokens =
      (if s ∈ cfg.authorized_tokens then cfg.authorized_tokens.erase s
       else cfg.authorized_tokens) := by
  have hmem : s ∈ (initState cfg).tokens ++ permList cfg.permanent_auth_token := by
    rw [initState_tokens]
    exact List.mem_append.mpr hcand
  have hall2 : ∀ t ∈ (initState cfg).tokens ++ permList cfg.permanent_auth_token,
      isAsciiStr t = true := by
    rw [initState_tokens]
    exact hall
  unfold start bodyRun
  simp only [List.head?_cons, recv_service_message, jget, hdisc, isStrV,
    beq_self_eq_true, if_true, authPhase_success cfg (initState cfg) fields s
      hauth htok hne has hall2 hmem]
  constructor
  · exact finish_connect_ready _ _ _ (by simp)
  · rw [finish_connect_tokens]
    simp

/-- With authentication disabled, no run ever changes the token set. -/
lemma start_tokens_disabled (cfg : ServerCfg)
    (dial : Option JValue → Option JValue → Except String Unit)
    (input : List Recv) (h : cfg.disable_auth = true) :
    (start cfg dial input).tokens = cfg.authorized_tokens := by
  unfold start bodyRun
  cases hr : recv_service_message input.head? with
  | error e => simp [finishBody]
  | ok msg =>
    dsimp only
    cases hj : jget msg "_" with
    | error e => simp [finishBody]
    | ok d =>
      dsimp only
      cases hb : isStrV d "hello" with
      | false => simp [finishBody, fatal_eq]
      | true =>
        have ha : authPhase cfg (initState cfg) msg = .ok (initState cfg) := by
          unfold authPhase
          simp [h]
        rw [ha]
        dsimp only
        rw [if_pos rfl, finish_connect_tokens]
        simp

/-! Claim theorems. -/

/-- C1: when authentication is enabled and the hello carries a (non-empty,
ASCII) auth_token equal to a member of the all-ASCII candidate set (one-time
tokens plus the truthy permanent token), the session is authenticated (ready
is sent); the run removes exactly the matched token from authorized_tokens
when the match came from the one-time set, removes nothing when only the
permanent token matched, and removes nothing when authentication is
disabled.  (A non-ASCII operand would make hmac.compare_digest raise
TypeError instead of comparing.) -/
theorem C1_one_time_token_consumption (cfg : ServerCfg)
    (dial : Option JValue → Option JValue → Except String Unit)
    (fields : List (String × JValue)) (rest : List Recv) (s : String)
    (hauth : cfg.disable_auth = false)
    (hdisc : pyDictGet fields "_" = some (JValue.str "hello"))
    (htok : pyDictGet fields "auth_token" = some (JValue.str s))
    (hne : s ≠ "") (has : isAsciiStr s = true)
    (htoks : ∀ t ∈ cfg.authorized_tokens, isAsciiStr t = true)
    (hps : ∀ t ∈ permList cfg.permanent_auth_token, isAsciiStr t = true)
    (hcand : s ∈ cfg.authorized_tokens ∨ s ∈ permList cfg.permanent_auth_token) :
    SMsg.ready ∈ (start cfg dial (Recv.frame (JValue.obj fields) :: rest)).sent
    ∧ (s ∈ cfg.authorized_tokens →
        (start cfg dial (Recv.frame (JValue.obj fields) :: rest)).tokens
          = cfg.authorized_tokens.erase s
        ∧ ((start cfg dial (Recv.frame (JValue.obj fields) :: rest)).tokens).length + 1
          = cfg.authorized_tokens.length)
    ∧ (s ∉ cfg.authorized_tokens →
        (start cfg dial (Recv.frame (JValue.obj fields) :: rest)).tokens
          = cfg.authorized_tokens)
    ∧ (∀ (cfg2 : ServerCfg) (dial2 : Option JValue → Option JValue → Except String Unit)
        (input2 : List Recv), cfg2.disable_auth = true →
        (start cfg2 dial2 input2).tokens = cfg2.authorized_tokens) := by
  have hall : ∀ t ∈ cfg.authorized_tokens ++ permList cfg.permanent_auth_token,
      isAsciiStr t = true := by
    intro t ht
    rcases List.mem_append.mp ht with h1 | h1
    · exact htoks t h1
    · exact hps t h1
  obtain ⟨hready, htks⟩ := auth_success_run cfg dial fields rest s hauth hdisc
    htok hne has hall hcand
  refine ⟨hready, ?_, ?_, ?_⟩
  · intro hmem
    rw [htks, if_pos hmem]
    refine ⟨rfl, ?_⟩
    rw [List.length_erase_of_mem hmem]
    have : 0 < cfg.authorized_tokens.length := List.length_pos_of_mem hmem
    omega
  · intro hnm
    rw [htks, if_neg hnm]
  · intro cfg2 dial2 input2 h2
    exact start_tokens_disabled cfg2 dial2 input2 h2

/-- C2: authenticating with the (ASCII) permanent token never removes it: a
second session presenting the same permanent token against the token set the
first session left behind still authenticates, also when the same string
sits in the (all-ASCII) one-time set. -/
theorem C2_permanent_token_reusable (cfg : ServerCfg)
    (dial1 dial2 : Option JValue → Option JValue → Except String Unit)
    (fields1 fields2 : List (String × JValue)) (rest1 rest2 : List Recv)
    (s : String)
    (hauth : cfg.disable_auth = false)
    (hperm : cfg.permanent_auth_token = some s) (hne : s ≠ "")
    (has : isAsciiStr s = true)
    (htoks : ∀ t ∈ cfg.authorized_tokens, isAsciiStr t = true)
    (hd1 : pyDictGet fields1 "_" = some (JValue.str "hello"))
    (ht1 : pyDictGet fields1 "auth_token" = some (JValue.str s))
    (hd2 : pyDictGet fields2 "_" = some (JValue.str "hello"))
    (ht2 : pyDictGet fields2 "auth_token" = some (JValue.str s)) :
    SMsg.ready ∈ (start cfg dial1 (Recv.frame (JValue.obj fields1) :: rest1)).sent ∧
    SMsg.ready ∈ (start
        { cfg with authorized_tokens :=
            (start cfg dial1 (Recv.frame (JValue.obj fields1) :: rest1)).tokens }
        dial2 (Recv.frame (JValue.obj fields2) :: rest2)).sent := by
  have hbe : (s == "") = false := beq_eq_false_iff_ne.mpr hne
  have hpl : s ∈ permList cfg.permanent_auth_token := by
    rw [hperm]
    simp [permList, hbe]
  have hps : ∀ t ∈ permList cfg.permanent_auth_token, isAsciiStr t = true := by
    rw [hperm]
    intro t ht
    simp [permList, hbe] at ht
    rw [ht]
    exact has
  have hall1 : ∀ t ∈ cfg.authorized_tokens ++ permList cfg.permanent_auth_token,
      isAsciiStr t = true := by
    intro t ht
    rcases List.mem_append.mp ht with h1 | h1
    · exact htoks t h1
    · exact hps t h1
  have h1 := auth_success_run cfg dial1 fields1 rest1 s hauth hd1 ht1 hne has
    hall1 (Or.inr hpl)
  refine ⟨h1.1, ?_⟩
  have htoks2 : ∀ t ∈ (start cfg dial1
      (Recv.frame (JValue.obj fields1) :: rest1)).tokens, isAsciiStr t = true := by
    intro t ht
    rw [h1.2] at ht
    by_cases hc : s ∈ cfg.authorized_tokens
    · rw [if_pos hc] at ht
      exact htoks t (List.mem_of_mem_erase ht)
    · rw [if_neg hc] at ht
      exact htoks t ht
  have hall2 : ∀ t ∈ (start cfg dial1
        (Recv.frame (JValue.obj fields1) :: rest1)).tokens
      ++ permList cfg.permanent_auth_token, isAsciiStr t = true := by
    intro t ht
    rcases List.mem_append.mp ht with h1 | h1
    · exact htoks2 t h1
    · exact hps t h1
  have h2 := auth_success_run
    { cfg with authorized_tokens :=
        (start cfg dial1 (Recv.frame (JValue.obj fields1) :: rest1)).tokens }
    dial2 fields2 rest2 s hauth hd2 ht2 hne has hall2 (Or.inr hpl)
  exact h2.1

/-- C3: when authentication is enabled and the presented (non-empty, ASCII)
auth_token string matches no candidate token in the all-ASCII candidate set,
the session is terminated with fatal incorrect-auth-token and the token set
is left exactly unchanged. -/
theorem C3_incorrect_token_unchanged (cfg : ServerCfg)
    (dial : Option JValue → Option JValue → Except String Unit)
    (fields : List (String × JValue)) (rest : List Recv) (s : String)
    (hauth : cfg.disable_auth = false)
    (hdisc : pyDictGet fields "_" = some (JValue.str "hello"))
    (htok : pyDictGet fields "auth_token" = some (JValue.str s))
    (hne : s ≠ "") (has : isAsciiStr s = true)
    (htoks : ∀ t ∈ cfg.authorized_tokens, isAsciiStr t = true)
    (hps : ∀ t ∈ permList cfg.permanent_auth_token, isAsciiStr t = true)
    (hnot : s ∉ cfg.authorized_tokens)
    (hnop : s ∉ permList cfg.permanent_auth_token) :
    (start cfg dial (Recv.frame (JValue.obj fields) :: rest)).sent
      = [SMsg.hello 1 true, SMsg.error "incorrect-auth-token" none]
    ∧ (start cfg dial (Recv.frame (JValue.obj fields) :: rest)).tokens
      = cfg.authorized_tokens
    ∧ (start cfg dial (Recv.frame (JValue.obj fields) :: rest)).closed = true := by
  have hnm : s ∉ (initState cfg).tokens ++ permList cfg.permanent_auth_token := by
    rw [initState_tokens]
    intro hm
    rcases List.mem_append.mp hm with h1 | h1
    · exact hnot h1
    · exact hnop h1
  have hall : ∀ t ∈ (initState cfg).tokens ++ permList cfg.permanent_auth_token,
      isAsciiStr t = true := by
    rw [initState_tokens]
    intro t ht
    rcases List.mem_append.mp ht with h1 | h1
    · exact htoks t h1
    · exact hps t h1
  unfold start bodyRun
  simp only [List.head?_cons, recv_service_message, jget, hdisc, isStrV,
    beq_self_eq_true, if_true,
    authPhase_fail cfg (initState cfg) fields s hauth htok hne has hall hnm]
  refine ⟨?_, ?_, ?_⟩ <;> simp [finishBody, fatal_eq, hauth]

/-- Witness for C1: one configured one-time token T1, presented token T1; the
session authenticates and the token set is emptied. -/
theorem C1_witness :
    SMsg.ready ∈ (start ⟨["T1"], none, false⟩ (fun _ _ => Except.ok ())
      [Recv.frame (JValue.obj
        [("_", JValue.str "hello"), ("auth_token", JValue.str "T1")])]).sent ∧
    (start ⟨["T1"], none, false⟩ (fun _ _ => Except.ok ())
      [Recv.frame (JValue.obj
        [("_", JValue.str "hello"), ("auth_token", JValue.str "T1")])]).tokens
      = [] := by
  have h := C1_one_time_token_consumption ⟨["T1"], none, false⟩
    (fun _ _ => Except.ok ())
    [("_", JValue.str "hello"), ("auth_token", JValue.str "T1")] [] "T1"
    rfl rfl rfl (by decide) (by decide) (by decide) (by decide)
    (Or.inl (by decide))
  refine ⟨h.1, ?_⟩
  rw [(h.2.1 (by decide)).1]
  rfl

/-- Witness for C2: permanent token P that also sits in the one-time set;
both sessions authenticate. -/
theorem C2_witness :
    SMsg.ready ∈ (start ⟨["P"], some "P", false⟩ (fun _ _ => Except.ok ())
      [Recv.frame (JValue.obj
        [("_", JValue.str "hello"), ("auth_token", JValue.str "P")])]).sent ∧
    SMsg.ready ∈ (start
      { authorized_tokens :=
          (start ⟨["P"], some "P", false⟩ (fun _ _ => Except.ok ())
            [Recv.frame (JValue.obj
              [("_", JValue.str "hello"), ("auth_token", JValue.str "P")])]).tokens,
        permanent_auth_token := some "P", disable_auth := false }
      (fun _ _ => Except.ok ())
      [Recv.frame (JValue.obj
        [("_", JValue.str "hello"), ("auth_token", JValue.str "P")])]).sent :=
  C2_permanent_token_reusable ⟨["P"], some "P", false⟩
    (fun _ _ => Except.ok ()) (fun _ _ => Except.ok ())
    [("_", JValue.str "hello"), ("auth_token", JValue.str "P")]
    [("_", JValue.str "hello"), ("auth_token", JValue.str "P")] [] [] "P"
    rfl rfl (by decide) (by decide) (by decide) rfl rfl rfl rfl

/-- Witness for C3: one-time set holding T1, presented token T2; fatal
incorrect-auth-token and the set still holds T1. -/
theorem C3_witness :
    (start ⟨["T1"], none, false⟩ (fun _ _ => Except.ok ())
      [Recv.frame (JValue.obj
        [("_", JValue.str "hello"), ("auth_token", JValue.str "T2")])]).sent
      = [SMsg.hello 1 true, SMsg.error "incorrect-auth-token" none] ∧
    (start ⟨["T1"], none, false⟩ (fun _ _ => Except.ok ())
      [Recv.frame (JValue.obj
        [("_", JValue.str "hello"), ("auth_token", JValue.str "T2")])]).tokens
      = ["T1"] := by
  have h := C3_incorrect_token_unchanged ⟨["T1"], none, false⟩
    (fun _ _ => Except.ok ())
    [("_", JValue.str "hello"), ("auth_token", JValue.str "T2")] [] "T2"
    rfl rfl rfl (by decide) (by decide) (by decide) (by decide) (by decide)
    (by decide)
  exact ⟨h.1, h.2.1⟩

/-- C4 counterexample: after fatal on a fresh session the WebSocket is not
closed — fatal sends the frame and sets the session closed flag, but the
worker code never invokes websocket.close(), so the claim that the WebSocket
connection is closed once fatal returns is false. -/
theorem C4_cex_ws_not_closed :
    ¬ (fatal "expected-hello" none (initState ⟨[], none, true⟩)).wsClosed = true := by
  decide

/-- C4 (amended): fatal first appends the error control frame to the sent
stream and then calls close(), which sets the session closed flag; the
WebSocket connection itself is left untouched by fatal (the serving library
closes it only after the handler returns). -/
theorem C4_fatal_sends_then_marks_closed (code : String) (d : Option String)
    (st : RunState) :
    (fatal code d st).sent = st.sent ++ [SMsg.error code d]
    ∧ (fatal code d st).closed = true
    ∧ (fatal code d st).wsClosed = st.wsClosed := by
  simp [fatal_eq]

/-- C5: the session close never performs the teardown the claim requires:
gw_close releases neither the TCP writer nor the WebSocket (the guard on the
closed flag runs after super().close() already set it, so the drain-and-close
branch is dead code), and a complete handler run that successfully dialed a
TCP connection ends with the session closed but the writer and the WebSocket
still open. -/
theorem C5_close_releases_nothing :
    (∀ st : RunState, (gw_close st).writerClosed = st.writerClosed
      ∧ (gw_close st).wsClosed = st.wsClosed)
    ∧ (handler ⟨[], none, true⟩ (fun _ _ => Except.ok ())
        [Recv.frame (JValue.obj [("_", JValue.str "hello")]),
         Recv.frame (JValue.obj [("_", JValue.str "connect"),
           ("host", JValue.str "h"), ("port", JValue.num 22)])]).dialed = true
    ∧ (handler ⟨[], none, true⟩ (fun _ _ => Except.ok ())
        [Recv.frame (JValue.obj [("_", JValue.str "hello")]),
         Recv.frame (JValue.obj [("_", JValue.str "connect"),
           ("host", JValue.str "h"), ("port", JValue.num 22)])]).writerClosed = false
    ∧ (handler ⟨[], none, true⟩ (fun _ _ => Except.ok ())
        [Recv.frame (JValue.obj [("_", JValue.str "hello")]),
         Recv.frame (JValue.obj [("_", JValue.str "connect"),
           ("host", JValue.str "h"), ("port", JValue.num 22)])]).wsClosed = false
    ∧ (handler ⟨[], none, true⟩ (fun _ _ => Except.ok ())
        [Recv.frame (JValue.obj [("_", JValue.str "hello")]),
         Recv.frame (JValue.obj [("_", JValue.str "connect"),
           ("host", JValue.str "h"), ("port", JValue.num 22)])]).closed = true := by
  refine ⟨?_, ?_, ?_, ?_, ?_⟩
  · intro st
    rw [gw_close_eq]
    exact ⟨rfl, rfl⟩
  · decide
  · decide
  · decide
  · decide

/-- C6 counterexample: a connect frame with host and port both missing is
not answered with invalid-message; the dial runs with the absent values and
its failure is reported as fatal connection-failed. -/
theorem C6_cex_missing_fields_connection_failed :
    (start ⟨[], none, true⟩ (fun _ _ => Except.error "refused")
      [Recv.frame (JValue.obj [("_", JValue.str "hello")]),
       Recv.frame (JValue.obj [("_", JValue.str "connect")])]).sent
      = [SMsg.hello 1 false, SMsg.ready,
         SMsg.error "connection-failed" (some "refused")]
    ∧ ¬ ∃ d, SMsg.error "invalid-message" d ∈
        (start ⟨[], none, true⟩ (fun _ _ => Except.error "refused")
          [Recv.frame (JValue.obj [("_", JValue.str "hello")]),
           Recv.frame (JValue.obj [("_", JValue.str "connect")])]).sent := by
  constructor
  · decide
  · rintro ⟨d, hd⟩
    have he : (start ⟨[], none, true⟩ (fun _ _ => Except.error "refused")
        [Recv.frame (JValue.obj [("_", JValue.str "hello")]),
         Recv.frame (JValue.obj [("_", JValue.str "connect")])]).sent
        = [SMsg.hello 1 false, SMsg.ready,
           SMsg.error "connection-failed" (some "refused")] := by decide
    rw [he] at hd
    simp at hd

/-- C6 (amended): in the AwaitingConnect state a connect message with
missing host or missing port is not specially detected; the session records
the absent values and dials with them, reporting fatal connection-failed
with the dial's error message when the dial fails and proceeding to
connected when it succeeds; invalid-message is not produced here. -/
theorem C6_missing_host_port_dials (st : RunState)
    (dial : Option JValue → Option JValue → Except String Unit)
    (fields : List (String × JValue))
    (hdisc : pyDictGet fields "_" = some (JValue.str "connect"))
    (_hmiss : pyDictGet fields "host" = none ∨ pyDictGet fields "port" = none) :
    (∃ e, dial (pyDictGet fields "host") (pyDictGet fields "port") = .error e
      ∧ (finishBody (connectPhase st dial
            (some (Recv.frame (JValue.obj fields))))).sent
          = st.sent ++ [SMsg.error "connection-failed" (some e)]
      ∧ (finishBody (connectPhase st dial
            (some (Recv.frame (JValue.obj fields))))).closed = true)
    ∨ (dial (pyDictGet fields "host") (pyDictGet fields "port") = .ok ()
      ∧ (finishBody (connectPhase st dial
            (some (Recv.frame (JValue.obj fields))))).sent
          = st.sent ++ [SMsg.connected]) := by
  unfold connectPhase
  simp only [recv_service_message, jget, hdisc, isStrV, beq_self_eq_true, if_true]
  cases hd : dial (pyDictGet fields "host") (pyDictGet fields "port") with
  | error e =>
    left
    exact ⟨e, rfl, by simp [finishBody, fatal_eq], by simp [finishBody, fatal_eq]⟩
  | ok u =>
    right
    cases u
    exact ⟨rfl, by simp [finishBody]⟩

/-- Witness for the amended C6: connect frame without host and port against
a refusing dial oracle. -/
theorem C6_witness :
    (∃ e, (fun (_ _ : Option JValue) => (Except.error "refused" : Except String Unit))
          (pyDictGet [("_", JValue.str "connect")] "host")
          (pyDictGet [("_", JValue.str "connect")] "port") = .error e
      ∧ (finishBody (connectPhase (initState ⟨[], none, true⟩)
            (fun _ _ => Except.error "refused")
            (some (Recv.frame (JValue.obj [("_", JValue.str "connect")]))))).sent
          = (initState ⟨[], none, true⟩).sent
            ++ [SMsg.error "connection-failed" (some e)]
      ∧ (finishBody (connectPhase (initState ⟨[], none, true⟩)
            (fun _ _ => Except.error "refused")
            (some (Recv.frame (JValue.obj
              [("_", JValue.str "connect")]))))).closed = true)
    ∨ ((fun (_ _ : Option JValue) => (Except.error "refused" : Except String Unit))
          (pyDictGet [("_", JValue.str "connect")] "host")
          (pyDictGet [("_", JValue.str "connect")] "port") = .ok ()
      ∧ (finishBody (connectPhase (initState ⟨[], none, true⟩)
            (fun _ _ => Except.error "refused")
            (some (Recv.frame (JValue.obj [("_", JValue.str "connect")]))))).sent
          = (initState ⟨[], none, true⟩).sent ++ [SMsg.connected]) :=
  C6_missing_host_port_dials (initState ⟨[], none, true⟩)
    (fun _ _ => Except.error "refused") [("_", JValue.str "connect")]
    rfl (Or.inl rfl)

/-- Calling .get on a JSON value that is not an object raises
AttributeError. -/
lemma jget_not_obj (v : JValue) (k : String) (h : isObjV v = false) :
    jget v k = .error (.attrErr "object has no attribute get") := by
  cases v <;> first | rfl | simp [isObjV] at h

/-- C7 counterexample: a well-formed JSON payload that is not an object (the
number 42) is answered with fatal handshake-error, not invalid-message: the
AttributeError raised by msg.get falls through to the generic exception
handler. -/
theorem C7_cex_non_object_handshake_error :
    (start ⟨[], none, true⟩ (fun _ _ => Except.ok ())
      [Recv.frame (JValue.num 42)]).sent
      = [SMsg.hello 1 false,
         SMsg.error "handshake-error" (some "object has no attribute get")]
    ∧ ¬ ∃ d, SMsg.error "invalid-message" d ∈
        (start ⟨[], none, true⟩ (fun _ _ => Except.ok ())
          [Recv.frame (JValue.num 42)]).sent := by
  constructor
  · decide
  · rintro ⟨d, hd⟩
    have he : (start ⟨[], none, true⟩ (fun _ _ => Except.ok ())
        [Recv.frame (JValue.num 42)]).sent
        = [SMsg.hello 1 false,
           SMsg.error "handshake-error" (some "object has no attribute get")] := by
      decide
    rw [he] at hd
    simp at hd

/-- C7 (amended): a handshake frame with malformed JSON fails the session
with fatal invalid-message; a frame whose payload parses but is not a JSON
object fails it with fatal handshake-error instead (the AttributeError from
msg.get is caught by the generic handler, not by the JSONDecodeError/TypeError
handler); in general the exception handlers map JSONDecodeError to
invalid-message and AttributeError to handshake-error. -/
theorem C7_malformed_vs_non_object (cfg : ServerCfg)
    (dial : Option JValue → Option JValue → Except String Unit)
    (rest : List Recv) (v : JValue) (hv : isObjV v = false) :
    ((start cfg dial (Recv.malformed :: rest)).sent
      = [SMsg.hello 1 (!cfg.disable_auth),
         SMsg.error "invalid-message" (some "Invalid JSON format")]
    ∧ (start cfg dial (Recv.malformed :: rest)).closed = true)
    ∧ ((start cfg dial (Recv.frame v :: rest)).sent
      = [SMsg.hello 1 (!cfg.disable_auth),
         SMsg.error "handshake-error" (some "object has no attribute get")]
    ∧ (start cfg dial (Recv.frame v :: rest)).closed = true)
    ∧ (∀ (st : RunState) (m : String),
        (handleExn .jsonDecode st).sent
          = st.sent ++ [SMsg.error "invalid-message" (some "Invalid JSON format")]
        ∧ (handleExn (.attrErr m) st).sent
          = st.sent ++ [SMsg.error "handshake-error" (some m)]) := by
  refine ⟨?_, ?_, ?_⟩
  · unfold start bodyRun
    simp [recv_service_message, finishBody, handleExn, fatal_eq]
  · unfold start bodyRun
    simp [recv_service_message, jget_not_obj v "_" hv, finishBody, handleExn,
      fatal_eq]
  · intro st m
    exact ⟨by simp [handleExn, fatal_eq], by simp [handleExn, fatal_eq]⟩

/-- Witness for the amended C7: malformed JSON and the non-object payload 42
against a concrete configuration. -/
theorem C7_witness :
    (start ⟨[], none, true⟩ (fun _ _ => Except.ok ()) [Recv.malformed]).sent
      = [SMsg.hello 1 false,
         SMsg.error "invalid-message" (some "Invalid JSON format")]
    ∧ (start ⟨[], none, true⟩ (fun _ _ => Except.ok ())
        [Recv.frame (JValue.num 42)]).closed = true := by
  have h := C7_malformed_vs_non_object ⟨[], none, true⟩ (fun _ _ => Except.ok ())
    [] (JValue.num 42) rfl
  exact ⟨h.1.1, h.2.1.2⟩

/-- C10: a falsy max_message_size (None or 0) is replaced by the 10 MiB
default; the WebSocket max_size, read_limit and write_limit all receive the
effective value, which is always positive — no configuration yields an
unlimited (absent) or zero limit. -/
theorem C10_default_max_message_size (m : Option Nat) :
    ((m = none ∨ m = some 0) →
      mkServerConfig m =
        { max_size := 10 * 1024 * 1024, read_limit := 10 * 1024 * 1024,
          write_limit := 10 * 1024 * 1024 })
    ∧ 0 < (mkServerConfig m).max_size
    ∧ (mkServerConfig m).read_limit = effective_max_message_size m
    ∧ (mkServerConfig m).write_limit = effective_max_message_size m := by
  refine ⟨?_, ?_, rfl, rfl⟩
  · rintro (rfl | rfl) <;> rfl
  · cases m with
    | none => decide
    | some v =>
      by_cases hv : v = 0
      · subst hv
        decide
      · simp only [mkServerConfig, effective_max_message_size, hv, if_false]
        exact Nat.pos_of_ne_zero hv

/-- Witness for C10: both falsy configurations produce the 10 MiB limits. -/
theorem C10_witness :
    mkServerConfig none = ⟨10485760, 10485760, 10485760⟩ ∧
    mkServerConfig (some 0) = ⟨10485760, 10485760, 10485760⟩ :=
  ⟨(C10_default_max_message_size none).1 (Or.inl rfl),
   (C10_default_max_message_size (some 0)).1 (Or.inr rfl)⟩

/-! Lemmas about the patched HTTP line reader. -/

@[simp] lemma endsWithLF_concat (l : List Nat) (b : Nat) :
    endsWithLF (l ++ [b]) ↔ b = 10 := by
  simp [endsWithLF, List.getLast?_concat]

@[simp] lemma endsWithCRLF_concat (l : List Nat) (b : Nat) :
    endsWithCRLF (l ++ [b]) ↔ (b = 10 ∧ l.getLast? = some 13) := by
  simp [endsWithCRLF, List.getLast?_concat, List.dropLast_concat]

/-- Reading a stream that continues with the line terminator while every
pending byte is below the limit returns the stripped accumulated line. -/
lemma read_line_ok (content : List Nat) :
    ∀ (acc : List Nat) (rest : List Nat), 10 ∉ content →
    acc.length + content.length ≤ max_line_length →
    patched_read_line (content ++ 10 :: rest) acc = .ok (stripCR (acc ++ content)) := by
  induction content with
  | nil =>
    intro acc rest _ _
    simp only [List.nil_append, List.append_nil]
    unfold patched_read_line
    by_cases hc : acc.getLast? = some 13
    · rw [if_pos (by simp [hc])]
      simp [List.dropLast_concat, stripCR, hc]
    · rw [if_neg (by simp [hc]), if_pos (by simp)]
      simp [List.dropLast_concat, stripCR, hc]
  | cons b cs ih =>
    intro acc rest hno hlen
    have hb : b ≠ 10 := fun h => hno (h ▸ List.mem_cons_self b cs)
    have hno2 : 10 ∉ cs := fun h => hno (List.mem_cons_of_mem _ h)
    simp only [List.cons_append]
    unfold patched_read_line
    rw [if_neg (by simp [hb]), if_neg (by simp [hb]),
      if_neg (by simp; simp [List.length_cons] at hlen; omega)]
    rw [ih (acc ++ [b]) rest hno2 (by simp [List.length_cons] at hlen ⊢; omega)]
    simp

/-- Reading a stream whose next max_line_length + 1 bytes contain no LF
raises SecurityError. -/
lemma read_line_err (pre : List Nat) :
    ∀ (acc rest : List Nat), 10 ∉ pre → pre ≠ [] →
    acc.length + pre.length = max_line_length + 1 →
    patched_read_line (pre ++ rest) acc = .error .securityError := by
  induction pre with
  | nil =>
    intro acc rest _ hne _
    exact absurd rfl hne
  | cons b cs ih =>
    intro acc rest hno _ hlen
    have hb : b ≠ 10 := fun h => hno (h ▸ List.mem_cons_self b cs)
    have hno2 : 10 ∉ cs := fun h => hno (List.mem_cons_of_mem _ h)
    simp only [List.cons_append]
    unfold patched_read_line
    rw [if_neg (by simp [hb]), if_neg (by simp [hb])]
    cases cs with
    | nil =>
      rw [if_pos (by simp [List.length_cons] at hlen; simp; omega)]
    | cons c cs2 =>
      rw [if_neg (by simp [List.length_cons] at hlen; simp; omega)]
      exact ih (acc ++ [b]) rest hno2 (by simp)
        (by simp [List.length_cons] at hlen ⊢; omega)

/-- C8: the patched line reader accepts lines of at least 64 KiB — any line
whose LF terminator arrives while at most max_line_length bytes precede it
is returned with its terminator (and a directly preceding CR) stripped — and
raises SecurityError for every stream whose accumulated line exceeds
max_line_length bytes before a terminator is seen. -/
theorem C8_read_line_limit :
    (∀ (content rest : List Nat), 10 ∉ content →
      content.length ≤ max_line_length →
      patched_read_line (content ++ 10 :: rest) [] = .ok (stripCR content))
    ∧ (∀ (pre rest : List Nat), 10 ∉ pre →
      pre.length = max_line_length + 1 →
      patched_read_line (pre ++ rest) [] = .error .securityError) := by
  constructor
  · intro content rest h1 h2
    simpa using read_line_ok content [] rest h1 (by simpa using h2)
  · intro pre rest h1 h2
    refine read_line_err pre [] rest h1 ?_ (by simpa using h2)
    intro h
    rw [h] at h2
    simp [max_line_length] at h2

/-- Witness for C8: a short LF-terminated line is returned stripped, and a
stream of 64 KiB + 1 terminator-free bytes raises SecurityError. -/
theorem C8_witness :
    patched_read_line ([65, 66] ++ 10 :: []) [] = .ok (stripCR [65, 66])
    ∧ patched_read_line (List.replicate (max_line_length + 1) 65 ++ []) []
        = .error .securityError := by
  constructor
  · exact C8_read_line_limit.1 [65, 66] [] (by decide) (by decide)
  · exact C8_read_line_limit.2 (List.replicate (max_line_length + 1) 65) []
      (by simp [List.mem_replicate]) (by simp)

end TabbyGateway
